import Mathlib

/-!
Verification of the StableHLO `QuantizePass`
(`tensorflow/compiler/mlir/quantization/stablehlo/passes/quantize.cc`) and of
the dependency edges declared in
`third_party/xla/xla/service/gpu/fusions/mlir/ir/BUILD`.

The pass's policy logic is embedded shallowly: the pattern classes become
their static policy functions, `runOnOperation` becomes a pure function from
the pass's configuration (and the external greedy driver's convergence
outcome, which the pass only observes as a success/failure result) to the
registered pattern set, the emitted warnings and the pass-failure signal.
Records and helpers that live outside the provided sources
(`QuantizationSpecs`, `NumericVerifySpec`, `QuantPassSpec`,
`GetEntryFunctionName`) are modelled from the specification's data model and
are marked as such.
-/

namespace mlir.quant.stablehlo

/-- A character list contains `sub` as a contiguous sublist.  This is the
semantics of `llvm::StringRef::contains` on the underlying characters. -/
def listContainsSublist (sub : List Char) : List Char → Bool
  | [] => sub.isEmpty
  | c :: t => sub.isPrefixOf (c :: t) || listContainsSublist sub t

/-- `s.contains(sub)` on strings, mirroring `llvm::StringRef::contains`. -/
def strContains (s sub : String) : Bool :=
  listContainsSublist sub.toList s.toList

/-- An MLIR operation as far as this pass observes it: whether the operation
is a `TF::XlaCallModuleOp`, and the entry-function identifier associated with
it (what `GetEntryFunctionName` reads off the operation). -/
structure Operation where
  isXlaCallModuleOp : Bool
  entryFunctionName : String
deriving DecidableEq, Repr

/-- A typed `TF::XlaCallModuleOp` handle, as produced by an LLVM-style cast:
it wraps an underlying operation pointer, null exactly when the wrapped
option is `none`.  The handle's boolean conversion (the `call_op &&` test in
the source) checks that pointer for null. -/
structure XlaCallModuleOp where
  ptr : Option Operation
deriving DecidableEq, Repr

/-- The boolean conversion of an operation handle: true iff non-null. -/
def XlaCallModuleOp.toBool (c : XlaCallModuleOp) : Bool :=
  c.ptr.isSome

/-- `cast<TF::XlaCallModuleOp>(op)`.  The LLVM `cast` is defined only when
the operation is of the target type; `none` models the violated precondition
(the cast asserts, and in release builds the behavior is undefined).  When
the precondition holds the cast wraps the very operation and never yields a
null handle. -/
def castXlaCallModuleOp (op : Operation) : Option XlaCallModuleOp :=
  if op.isXlaCallModuleOp then some ⟨some op⟩ else none

/-- Modelled from the spec: `GetEntryFunctionName` (declared in
`attrs_and_constraints.h`, which is not among the provided sources) returns
the function identifier associated with the call operation; the spec
describes the eligibility decision as "a simple name-substring check on an
associated function identifier".  A null handle carries no identifier. -/
def GetEntryFunctionName (c : XlaCallModuleOp) : String :=
  match c.ptr with
  | some o => o.entryFunctionName
  | none => ""

/-- `StableHloQuantizationBase::AllowHybridQuantization`: the base pattern
class refuses hybrid quantization for every operation. -/
def StableHloQuantizationBase.AllowHybridQuantization (_ : Operation) : Bool :=
  false

/-- The root-operation type a quantization pattern is anchored at: the
`quantfork::DequantizeCastOp` (the template default) or the
`quantfork::QuantizeCastOp`. -/
inductive RootOpKind
  | dequantizeCast
  | quantizeCast
deriving DecidableEq, Repr

/-- `StableHloQuantization` instantiates the base with the default root
operation, the dequantize cast. -/
def StableHloQuantization.RootOp : RootOpKind :=
  RootOpKind.dequantizeCast

/-- `StableHloQuantizationReverse` instantiates the base with the quantize
cast as root operation. -/
def StableHloQuantizationReverse.RootOp : RootOpKind :=
  RootOpKind.quantizeCast

/-- `StableHloQuantizationHybrid` keeps the default root operation, the
dequantize cast. -/
def StableHloQuantizationHybrid.RootOp : RootOpKind :=
  RootOpKind.dequantizeCast

/-- `StableHloQuantization` declares no `AllowHybridQuantization` of its own:
it inherits the base's. -/
def StableHloQuantization.AllowHybridQuantization : Operation → Bool :=
  StableHloQuantizationBase.AllowHybridQuantization

/-- `StableHloQuantizationReverse` declares no `AllowHybridQuantization` of
its own: it inherits the base's. -/
def StableHloQuantizationReverse.AllowHybridQuantization : Operation → Bool :=
  StableHloQuantizationBase.AllowHybridQuantization

/-- `StableHloQuantizationHybrid::AllowHybridQuantization`: casts the
operation to `TF::XlaCallModuleOp` (`none` = the cast's precondition is
violated), then returns `call_op && GetEntryFunctionName(call_op)
.contains("dot_general")`. -/
def StableHloQuantizationHybrid.AllowHybridQuantization (op : Operation) :
    Option Bool :=
  match castXlaCallModuleOp op with
  | none => none
  | some call_op =>
      some (call_op.toBool && strContains (GetEntryFunctionName call_op) "dot_general")

/-- The TensorFlow numeric data types this fragment mentions. -/
inductive DataType
  | DT_FLOAT
  | DT_QINT8
deriving DecidableEq, Repr

/-- Modelled from the spec: the configuration record `QuantizationSpecs`
(declared in `quantization_config.h`, which is not among the provided
sources).  The spec's data model names the inference numeric type and the
numeric-verification flags as the options this record contributes; the
default-constructed record has the floating-point inference type and both
verification flags off. -/
structure QuantizationSpecs where
  inference_type : DataType := DataType.DT_FLOAT
  verify_numeric : Bool := false
  whole_model_verify : Bool := false
deriving DecidableEq, Repr

/-- The record produced by `QuantizationSpecs quant_specs;` (default
construction). -/
def QuantizationSpecs.defaultConstructed : QuantizationSpecs :=
  {}

/-- Modelled from the spec: `NumericVerifySpec` (declared in
`quantization_utils.h`, which is not among the provided sources) carries the
numeric-verification flags the pass forwards. -/
structure NumericVerifySpec where
  verify_numeric : Bool := false
  whole_model_verify : Bool := false
deriving DecidableEq, Repr

/-- Modelled from the spec: `QuantPassSpec` (declared in
`quantization_utils.h`) bundles the numeric-verification spec with the full
quantization-options record; the pass hands it to every pattern object. -/
structure QuantPassSpec where
  numeric_verify_spec : NumericVerifySpec
  quant_specs : QuantizationSpecs
deriving DecidableEq, Repr

/-- The state of a `QuantizePass` instance: the two boolean options and the
stored `QuantizationSpecs`, exactly the fields the class holds. -/
structure QuantizePass where
  enable_per_channel_quantized_weight_ : Bool
  enable_weight_only_ : Bool
  quant_specs_ : QuantizationSpecs
deriving DecidableEq, Repr

/-- One entry of the `RewritePatternSet` built by `runOnOperation`: the three
variant pattern classes (each constructed with the `QuantPassSpec` the pass
built), and the four pattern-population calls. -/
inductive RegisteredPattern
  | quantization (quant_params : QuantPassSpec)
  | quantizationReverse (quant_params : QuantPassSpec)
  | quantizationHybrid (quant_params : QuantPassSpec)
  | hybridPatterns
  | opWithRegion
  | fusedGemmStyle (enable_per_channel_quantized_weight : Bool)
  | singularOp
deriving DecidableEq, Repr

/-- The `QuantPassSpec` a registered pattern was constructed with, when it is
one of the three variant pattern classes. -/
def RegisteredPattern.quantParamsOf : RegisteredPattern → Option QuantPassSpec
  | RegisteredPattern.quantization qp => some qp
  | RegisteredPattern.quantizationReverse qp => some qp
  | RegisteredPattern.quantizationHybrid qp => some qp
  | _ => none

/-- What one run of the pass produces: the pattern set it registered, the
warnings it emitted on the module, and whether it signalled pass failure. -/
structure PassOutcome where
  patterns : List RegisteredPattern
  warnings : List String
  signaledPassFailure : Bool
deriving DecidableEq, Repr

/-- The `QuantPassSpec` built at the top of `runOnOperation`: a
`NumericVerifySpec` whose two flags are copied from `quant_specs_`, paired
with `quant_specs_` itself. -/
def QuantizePass.quantParams (p : QuantizePass) : QuantPassSpec :=
  { numeric_verify_spec :=
      { verify_numeric := p.quant_specs_.verify_numeric
        whole_model_verify := p.quant_specs_.whole_model_verify }
    quant_specs := p.quant_specs_ }

/-- `QuantizePass::runOnOperation`.  `greedyRewriteConverged` is the result
of `applyPatternsAndFoldGreedily`, which the external driver computes and the
pass only branches on.  The pattern list follows the source's registration
order; a failed convergence emits one warning; the pass never calls
`signalPassFailure`. -/
def QuantizePass.runOnOperation (p : QuantizePass)
    (greedyRewriteConverged : Bool) : PassOutcome :=
  let quant_params := p.quantParams
  let patterns : List RegisteredPattern :=
    [RegisteredPattern.quantization quant_params,
     RegisteredPattern.quantizationReverse quant_params]
    ++ (if p.enable_weight_only_ then
          [RegisteredPattern.quantizationHybrid quant_params,
           RegisteredPattern.hybridPatterns]
        else [])
    ++ [RegisteredPattern.opWithRegion,
        RegisteredPattern.fusedGemmStyle p.enable_per_channel_quantized_weight_,
        RegisteredPattern.singularOp]
  { patterns := patterns
    warnings :=
      if greedyRewriteConverged then []
      else ["Failed to converge pattern at QuantizePass."]
    signaledPassFailure := false }

/-- `DefaultQuantizationSpecs`: default-construct a `QuantizationSpecs`, set
its `inference_type` to `DT_QINT8`, return it. -/
def DefaultQuantizationSpecs : QuantizationSpecs :=
  let quant_specs := QuantizationSpecs.defaultConstructed
  { quant_specs with inference_type := DataType.DT_QINT8 }

end mlir.quant.stablehlo

namespace XlaGpuBuild

/-- A Bazel target of the `xla/service/gpu/fusions/mlir/ir/BUILD` file: its
name and its declared dependency labels. -/
structure BazelTarget where
  name : String
  deps : List String
deriving DecidableEq, Repr

/-- The `td_library` target `xla_gpu_td_files`. -/
def xla_gpu_td_files : BazelTarget :=
  { name := "xla_gpu_td_files"
    deps := ["@llvm-project//mlir:CallInterfacesTdFiles",
             "@llvm-project//mlir:InferTypeOpInterfaceTdFiles",
             "@llvm-project//mlir:OpBaseTdFiles",
             "@llvm-project//mlir:SideEffectInterfacesTdFiles"] }

/-- The `gentbl_cc_library` target `xla_gpu_dialect_inc_gen`. -/
def xla_gpu_dialect_inc_gen : BazelTarget :=
  { name := "xla_gpu_dialect_inc_gen"
    deps := [":xla_gpu_td_files"] }

/-- The `gentbl_cc_library` target `xla_gpu_ops_inc_gen`. -/
def xla_gpu_ops_inc_gen : BazelTarget :=
  { name := "xla_gpu_ops_inc_gen"
    deps := [":xla_gpu_td_files"] }

/-- The `gentbl_cc_library` target `xla_gpu_attrs_inc_gen`. -/
def xla_gpu_attrs_inc_gen : BazelTarget :=
  { name := "xla_gpu_attrs_inc_gen"
    deps := [":xla_gpu_td_files"] }

/-- The `cc_library` target `xla_gpu`, with its full dependency list in the
order the BUILD file declares. -/
def xla_gpu : BazelTarget :=
  { name := "xla_gpu"
    deps := [":xla_gpu_attrs_inc_gen",
             ":xla_gpu_dialect_inc_gen",
             ":xla_gpu_ops_inc_gen",
             "//xla/service/gpu/model:indexing_analysis",
             "@llvm-project//llvm:Support",
             "@llvm-project//mlir:ArithDialect",
             "@llvm-project//mlir:BytecodeOpInterface",
             "@llvm-project//mlir:CallOpInterfaces",
             "@llvm-project//mlir:FuncDialect",
             "@llvm-project//mlir:IR",
             "@llvm-project//mlir:InferTypeOpInterface",
             "@llvm-project//mlir:InliningUtils",
             "@llvm-project//mlir:SideEffectInterfaces",
             "@llvm-project//mlir:Support"] }

end XlaGpuBuild

namespace mlir.quant.stablehlo

/-- C1: for an operation handled by the hybrid variant that is a
`TF::XlaCallModuleOp`, `StableHloQuantizationHybrid::AllowHybridQuantization`
returns true if and only if the entry-function name associated with the
operation contains the substring "dot_general"; the result is exactly that
substring test, so it depends on nothing else about the operation. -/
theorem C1_hybrid_allows_iff_dot_general (op : Operation)
    (h : op.isXlaCallModuleOp = true) :
    StableHloQuantizationHybrid.AllowHybridQuantization op
        = some (strContains op.entryFunctionName "dot_general")
    ∧ (StableHloQuantizationHybrid.AllowHybridQuantization op = some true
        ↔ strContains op.entryFunctionName "dot_general" = true) := by
  constructor
  · simp [StableHloQuantizationHybrid.AllowHybridQuantization,
      castXlaCallModuleOp, h, GetEntryFunctionName, XlaCallModuleOp.toBool]
  · simp [StableHloQuantizationHybrid.AllowHybridQuantization,
      castXlaCallModuleOp, h, GetEntryFunctionName, XlaCallModuleOp.toBool]

/-- C1 witness: a call operation whose entry function is
"composite_dot_general_fn_1" is allowed hybrid quantization. -/
theorem C1_witness :
    StableHloQuantizationHybrid.AllowHybridQuantization
        ⟨true, "composite_dot_general_fn_1"⟩ = some true := by
  have h := (C1_hybrid_allows_iff_dot_general
    ⟨true, "composite_dot_general_fn_1"⟩ rfl).1
  rw [h]
  decide

/-- C2: `runOnOperation` emits the warning "Failed to converge pattern at
QuantizePass." on the module if and only if the greedy pattern application
fails to converge; in either case the registered pattern set is the same and
the pass never signals pass failure. -/
theorem C2_convergence_warning (p : QuantizePass) (g : Bool) :
    ((p.runOnOperation g).warnings
        = ["Failed to converge pattern at QuantizePass."] ↔ g = false)
    ∧ (p.runOnOperation g).signaledPassFailure = false
    ∧ (p.runOnOperation g).patterns = (p.runOnOperation (!g)).patterns := by
  cases g <;> simp [QuantizePass.runOnOperation]

/-- C3: `runOnOperation` always registers the full variant
(`StableHloQuantization`, rooted at the dequantize cast) and the reverse
variant (`StableHloQuantizationReverse`, rooted at the quantize cast); it
registers the hybrid variant and the hybrid pattern population if and only if
`enable_weight_only_` is true. -/
theorem C3_registered_variants (p : QuantizePass) (g : Bool) :
    RegisteredPattern.quantization p.quantParams ∈ (p.runOnOperation g).patterns
    ∧ RegisteredPattern.quantizationReverse p.quantParams
        ∈ (p.runOnOperation g).patterns
    ∧ (RegisteredPattern.quantizationHybrid p.quantParams
          ∈ (p.runOnOperation g).patterns ↔ p.enable_weight_only_ = true)
    ∧ (RegisteredPattern.hybridPatterns ∈ (p.runOnOperation g).patterns
          ↔ p.enable_weight_only_ = true)
    ∧ StableHloQuantization.RootOp = RootOpKind.dequantizeCast
    ∧ StableHloQuantizationReverse.RootOp = RootOpKind.quantizeCast := by
  rcases Bool.dichotomy p.enable_weight_only_ with hw | hw <;>
    simp [QuantizePass.runOnOperation, hw, StableHloQuantization.RootOp,
      StableHloQuantizationReverse.RootOp]

/-- C4: every `QuantPassSpec` carried by a registered variant pattern is the
one the pass built, whose `NumericVerifySpec` takes `verify_numeric` and
`whole_model_verify` unchanged from `quant_specs_` and which carries
`quant_specs_` itself; the pass reads no other configuration. -/
theorem C4_forwards_verify_flags (p : QuantizePass) (g : Bool)
    (r : RegisteredPattern) (hr : r ∈ (p.runOnOperation g).patterns)
    (qp : QuantPassSpec) (hqp : r.quantParamsOf = some qp) :
    qp.numeric_verify_spec.verify_numeric = p.quant_specs_.verify_numeric
    ∧ qp.numeric_verify_spec.whole_model_verify
        = p.quant_specs_.whole_model_verify
    ∧ qp.quant_specs = p.quant_specs_ := by
  have hqp' : qp = p.quantParams := by
    rcases Bool.dichotomy p.enable_weight_only_ with hw | hw <;>
      simp [QuantizePass.runOnOperation, hw] at hr
    · rcases hr with rfl | rfl | rfl | rfl | rfl <;>
        simp_all [RegisteredPattern.quantParamsOf]
    · rcases hr with rfl | rfl | rfl | rfl | rfl | rfl | rfl <;>
        simp_all [RegisteredPattern.quantParamsOf]
  subst hqp'
  simp [QuantizePass.quantParams]

/-- C4 witness: in a concrete weight-only pass whose specs enable numeric
verification, the full-variant pattern carries those very specs. -/
theorem C4_witness :
    (⟨⟨true, false⟩, ⟨DataType.DT_QINT8, true, false⟩⟩
        : QuantPassSpec).quant_specs
      = ⟨DataType.DT_QINT8, true, false⟩ :=
  (C4_forwards_verify_flags ⟨true, true, ⟨DataType.DT_QINT8, true, false⟩⟩ true
    (RegisteredPattern.quantization
      ⟨⟨true, false⟩, ⟨DataType.DT_QINT8, true, false⟩⟩)
    (by decide) ⟨⟨true, false⟩, ⟨DataType.DT_QINT8, true, false⟩⟩
    (by decide)).2.2

/-- C5: the hybrid eligibility check is defined exactly on
`TF::XlaCallModuleOp` operations (on any other operation the cast's
precondition is violated); under that precondition the cast yields the very
operation and never a null handle, so the null test on `call_op` is
redundant and the result reduces to the substring check alone — the branch
returning false through a null `call_op` is unreachable. -/
theorem C5_cast_precondition_null_check_redundant (op : Operation) :
    (StableHloQuantizationHybrid.AllowHybridQuantization op = none
        ↔ op.isXlaCallModuleOp = false)
    ∧ (op.isXlaCallModuleOp = true →
        castXlaCallModuleOp op = some ⟨some op⟩
        ∧ XlaCallModuleOp.toBool ⟨some op⟩ = true
        ∧ StableHloQuantizationHybrid.AllowHybridQuantization op
            = some (strContains (GetEntryFunctionName ⟨some op⟩)
                "dot_general")) := by
  rcases Bool.dichotomy op.isXlaCallModuleOp with h | h <;>
    simp [StableHloQuantizationHybrid.AllowHybridQuantization,
      castXlaCallModuleOp, h, XlaCallModuleOp.toBool, GetEntryFunctionName]

/-- C6: `DefaultQuantizationSpecs` returns the default-constructed
`QuantizationSpecs` with only `inference_type` changed, to `DT_QINT8`; every
other field keeps its default value. -/
theorem C6_default_quantization_specs :
    DefaultQuantizationSpecs
        = { QuantizationSpecs.defaultConstructed with
            inference_type := DataType.DT_QINT8 }
    ∧ DefaultQuantizationSpecs.inference_type = DataType.DT_QINT8
    ∧ DefaultQuantizationSpecs.verify_numeric
        = QuantizationSpecs.defaultConstructed.verify_numeric
    ∧ DefaultQuantizationSpecs.whole_model_verify
        = QuantizationSpecs.defaultConstructed.whole_model_verify :=
  ⟨rfl, rfl, rfl, rfl⟩

/-- C7: the base pattern's `AllowHybridQuantization` returns false for every
operation, and the full and reverse variants inherit it unchanged, so they
never permit hybrid quantization. -/
theorem C7_base_and_variants_never_hybrid (op : Operation) :
    StableHloQuantizationBase.AllowHybridQuantization op = false
    ∧ StableHloQuantization.AllowHybridQuantization op = false
    ∧ StableHloQuantizationReverse.AllowHybridQuantization op = false
    ∧ StableHloQuantization.AllowHybridQuantization
        = StableHloQuantizationBase.AllowHybridQuantization
    ∧ StableHloQuantizationReverse.AllowHybridQuantization
        = StableHloQuantizationBase.AllowHybridQuantization :=
  ⟨rfl, rfl, rfl, rfl, rfl⟩

end mlir.quant.stablehlo

namespace XlaGpuBuild

/-- C8: the compiled library target `xla_gpu` depends on each of the three
table-generated targets, and each of those depends on the shared
`td_library` target `xla_gpu_td_files`. -/
theorem C8_xla_gpu_dependency_edges :
    ":xla_gpu_dialect_inc_gen" ∈ xla_gpu.deps
    ∧ ":xla_gpu_ops_inc_gen" ∈ xla_gpu.deps
    ∧ ":xla_gpu_attrs_inc_gen" ∈ xla_gpu.deps
    ∧ ":xla_gpu_td_files" ∈ xla_gpu_dialect_inc_gen.deps
    ∧ ":xla_gpu_td_files" ∈ xla_gpu_ops_inc_gen.deps
    ∧ ":xla_gpu_td_files" ∈ xla_gpu_attrs_inc_gen.deps := by
  decide

end XlaGpuBuild
